import Mathlib

/-!
# Verification of the intercom-backend call orchestrator

A shallow embedding, in Lean 4, of the parts of the `intercom-backend`
TypeScript service that the verified claims are about:

* the Redis-backed KV session store (`src/store/redis.ts`): prefixed keys
  `call:`, `channel:`, `endpoint:`, `originate:`, `outgoing:` with TTLs;
* the Postgres realtime-config store (`src/store/postgres.ts`):
  temporary PJSIP endpoint rows keyed by id;
* the ARI engine client (`src/ari/client.ts`): URL construction, basic-auth
  header, and the REST operations used by the orchestrator;
* the call orchestrator (`src/index.ts`, current draft): the `StasisStart`
  doorphone handler, the `EndpointStateChange` handler, the ring-timeout
  task, the stale-endpoint sweep and the pending-originate poller;
* the HTTP call routes (`src/routes/calls.ts` and its later revision):
  `GET /calls/credentials`, `POST /calls/end`, `POST /calls/outgoing-credentials`.

External effects (engine REST calls, the push vendor, Postgres failures)
are resolved by explicit oracles; every external request that the code
issues is recorded in an action trace, and the KV/DB state is threaded
explicitly.  Each handler is translated line by line from the TypeScript
source; `try`/`catch` blocks become `Except` matches.
-/

namespace Intercom

/-- SIP credentials as minted for a call (`sipCredentials` object in
`src/index.ts` / `src/routes/calls.ts`). -/
structure SipCredentials where
  username : String
  password : String
  domain   : String
  port     : Nat
deriving DecidableEq, Repr

/-- Payload stored under `call:<callToken>` (`CallPayload` in the routes). -/
structure CallPayload where
  channelId  : String
  endpointId : String
  creds      : SipCredentials
deriving DecidableEq, Repr

/-- Payload stored under `channel:<channelId>`. -/
structure ChannelSession where
  callToken  : String
  endpointId : String
deriving DecidableEq, Repr

/-- The `type` discriminator of an `endpoint:<id>` session record. -/
inductive SessKind
  | call
  | outgoing
deriving DecidableEq, Repr

/-- Payload stored under `endpoint:<endpointId>`: `{type, token}`. -/
structure EndpointSession where
  kind  : SessKind
  token : String
deriving DecidableEq, Repr

/-- Payload stored under `originate:<endpointId>`: `{bridgeId, channelId}`. -/
structure PendingOriginate where
  bridgeId  : String
  channelId : String
deriving DecidableEq, Repr

/-- Payload stored under `outgoing:<outgoingToken>` (`OutgoingPayload`). -/
structure OutgoingPayload where
  endpointId : String
  creds      : SipCredentials
deriving DecidableEq, Repr

/-- A value stored in the KV store, together with the TTL (seconds) it was
set with.  The JSON payloads of `src/store/redis.ts` are typed per key
prefix. -/
inductive KVEntry
  | call      (payload : CallPayload)      (ttlSec : Nat)
  | channel   (sess : ChannelSession)      (ttlSec : Nat)
  | endpoint  (sess : EndpointSession)     (ttlSec : Nat)
  | originate (p : PendingOriginate)       (ttlSec : Nat)
  | outgoing  (p : OutgoingPayload)        (ttlSec : Nat)
deriving DecidableEq, Repr

/-- The KV store: an association list keyed by the full Redis key
(`call:x`, `endpoint:y`, ...).  `redis.set` overwrites any previous value
of the key. -/
abbrev KV := List (String × KVEntry)

/-- `redis.set key value EX ttl` — replaces the value of `key`. -/
def KV.set (kv : KV) (key : String) (e : KVEntry) : KV :=
  (key, e) :: kv.filter (fun p => p.1 ≠ key)

/-- `redis.get key` — `none` for a missing (or expired) key. -/
def KV.get (kv : KV) (key : String) : Option KVEntry :=
  (kv.find? (fun p => p.1 = key)).map (·.2)

/-- `redis.del key`. -/
def KV.del (kv : KV) (key : String) : KV :=
  kv.filter (fun p => p.1 ≠ key)

/-- JS `String.prototype.startsWith`, modelled on the character list
(Lean's builtin `String.startsWith` is equivalent but does not reduce in
the kernel). -/
def strStartsWith (s p : String) : Bool :=
  s.data.take p.data.length == p.data

/-- A temporary PJSIP endpoint row group in the realtime tables
(`ps_aors` / `ps_auths` / `ps_endpoints` share the id, per
`createTempSipEndpoint` in `src/store/postgres.ts`). -/
structure PgEndpoint where
  id         : String
  username   : String
  password   : String
  context    : String
  templateId : String
deriving DecidableEq, Repr

/-- One message of the Expo push batch sent by the current doorphone
handler (`src/index.ts`, data-only: `{to, priority, data:{type, callId,
sipCredentials}}`). -/
structure PushMessage where
  «to»           : String
  priority       : String
  dataType       : String
  callId         : String
  sipCredentials : SipCredentials
deriving DecidableEq, Repr

/-- Observable external actions issued by the service, in program order. -/
inductive Action
  | createBridge
  | addChannelToBridge (bridgeId channelId : String)
  | answerChannel (channelId : String)
  | holdChannel (channelId : String)
  | hangupChannel (channelId : String)
  | originate (endpoint app appArgs : String)
  | getBridgeInfo (bridgeId : String)
  | sendPush (messages : List PushMessage)
  | armRingTimer (callToken channelId : String)
  | dbCreateEndpoint (id : String)
  | dbDeleteEndpoint (id : String)
  | kvWrite (key : String)
  | kvDelete (key : String)
deriving DecidableEq, Repr

/-- The state threaded through the handlers: the KV store, the realtime
endpoint rows, and the trace of external actions issued so far. -/
structure Sys where
  kv    : KV
  db    : List PgEndpoint
  trace : List Action
deriving DecidableEq

/-- The empty system state. -/
def Sys.empty : Sys := ⟨[], [], []⟩

namespace Sys

/-- Append one action to the trace. -/
def emit (s : Sys) (a : Action) : Sys :=
  { s with trace := s.trace ++ [a] }

end Sys

/-! ## `src/store/redis.ts` (current draft): typed accessors -/

/-- `setCallToken` — writes `call:<callToken>`. -/
def setCallToken (s : Sys) (callToken : String) (p : CallPayload) (ttlSec : Nat) : Sys :=
  { s with kv := s.kv.set ("call:" ++ callToken) (.call p ttlSec),
           trace := s.trace ++ [.kvWrite ("call:" ++ callToken)] }

/-- `getCallToken` — reads `call:<callToken>`. -/
def getCallToken (kv : KV) (callToken : String) : Option CallPayload :=
  match kv.get ("call:" ++ callToken) with
  | some (.call p _) => some p
  | _ => none

/-- `deleteCallToken` — deletes `call:<callToken>`. -/
def deleteCallToken (s : Sys) (callToken : String) : Sys :=
  { s with kv := s.kv.del ("call:" ++ callToken),
           trace := s.trace ++ [.kvDelete ("call:" ++ callToken)] }

/-- `setChannelSession` — writes `channel:<channelId>`. -/
def setChannelSession (s : Sys) (channelId : String) (p : ChannelSession) (ttlSec : Nat) : Sys :=
  { s with kv := s.kv.set ("channel:" ++ channelId) (.channel p ttlSec),
           trace := s.trace ++ [.kvWrite ("channel:" ++ channelId)] }

/-- `getChannelSession`. -/
def getChannelSession (kv : KV) (channelId : String) : Option ChannelSession :=
  match kv.get ("channel:" ++ channelId) with
  | some (.channel p _) => some p
  | _ => none

/-- `deleteChannelSession`. -/
def deleteChannelSession (s : Sys) (channelId : String) : Sys :=
  { s with kv := s.kv.del ("channel:" ++ channelId),
           trace := s.trace ++ [.kvDelete ("channel:" ++ channelId)] }

/-- `setEndpointSession` — writes `endpoint:<endpointId>`. -/
def setEndpointSession (s : Sys) (endpointId : String) (p : EndpointSession) (ttlSec : Nat) : Sys :=
  { s with kv := s.kv.set ("endpoint:" ++ endpointId) (.endpoint p ttlSec),
           trace := s.trace ++ [.kvWrite ("endpoint:" ++ endpointId)] }

/-- `getEndpointSession`. -/
def getEndpointSession (kv : KV) (endpointId : String) : Option EndpointSession :=
  match kv.get ("endpoint:" ++ endpointId) with
  | some (.endpoint p _) => some p
  | _ => none

/-- `deleteEndpointSession`. -/
def deleteEndpointSession (s : Sys) (endpointId : String) : Sys :=
  { s with kv := s.kv.del ("endpoint:" ++ endpointId),
           trace := s.trace ++ [.kvDelete ("endpoint:" ++ endpointId)] }

/-- `setOutgoingToken` — writes `outgoing:<outgoingToken>`. -/
def setOutgoingToken (s : Sys) (outgoingToken : String) (p : OutgoingPayload) (ttlSec : Nat) : Sys :=
  { s with kv := s.kv.set ("outgoing:" ++ outgoingToken) (.outgoing p ttlSec),
           trace := s.trace ++ [.kvWrite ("outgoing:" ++ outgoingToken)] }

/-- `getOutgoingToken`. -/
def getOutgoingToken (kv : KV) (outgoingToken : String) : Option OutgoingPayload :=
  match kv.get ("outgoing:" ++ outgoingToken) with
  | some (.outgoing p _) => some p
  | _ => none

/-- `deleteOutgoingToken`. -/
def deleteOutgoingToken (s : Sys) (outgoingToken : String) : Sys :=
  { s with kv := s.kv.del ("outgoing:" ++ outgoingToken),
           trace := s.trace ++ [.kvDelete ("outgoing:" ++ outgoingToken)] }

/-- `setPendingOriginate` — writes `originate:<endpointId>` (TTL is
`ringTimeoutSec` at every call site). -/
def setPendingOriginate (s : Sys) (endpointId : String) (p : PendingOriginate) (ttlSec : Nat) : Sys :=
  { s with kv := s.kv.set ("originate:" ++ endpointId) (.originate p ttlSec),
           trace := s.trace ++ [.kvWrite ("originate:" ++ endpointId)] }

/-- `getPendingOriginate`. -/
def getPendingOriginate (kv : KV) (endpointId : String) : Option PendingOriginate :=
  match kv.get ("originate:" ++ endpointId) with
  | some (.originate p _) => some p
  | _ => none

/-- `deletePendingOriginate`. -/
def deletePendingOriginate (s : Sys) (endpointId : String) : Sys :=
  { s with kv := s.kv.del ("originate:" ++ endpointId),
           trace := s.trace ++ [.kvDelete ("originate:" ++ endpointId)] }

/-! ## `src/store/postgres.ts`: temporary endpoint rows -/

/-- `createTempSipEndpoint` — upsert of the AOR/auth/endpoint rows keyed by
`id` (`ON CONFLICT ... DO UPDATE`, so no duplicate row is ever created). -/
def createTempSipEndpoint (s : Sys) (row : PgEndpoint) : Sys :=
  { s with db := row :: s.db.filter (fun r => r.id ≠ row.id),
           trace := s.trace ++ [.dbCreateEndpoint row.id] }

/-- `deleteTempSipEndpoint` — removes the endpoint/auth/AOR rows of `id`. -/
def deleteTempSipEndpoint (s : Sys) (id : String) : Sys :=
  { s with db := s.db.filter (fun r => r.id ≠ id),
           trace := s.trace ++ [.dbDeleteEndpoint id] }

/-- `listTempSipEndpoints` — ids matching `tmp_%` or `out_%`. -/
def listTempSipEndpoints (db : List PgEndpoint) : List String :=
  (db.filter (fun r => strStartsWith r.id "tmp_" || strStartsWith r.id "out_")).map (·.id)

/-! ## `src/config/env.ts`: configuration loading -/

/-- The `postgres` sub-record of the configuration. -/
structure PgConfig where
  host     : String
  port     : Nat
  db       : String
  user     : String
  password : String
deriving DecidableEq, Repr

/-- The process configuration, as built by `src/config/env.ts`.  Fields
with literal initialisers in the source are constants of `loadEnv`. -/
structure Env where
  appPort         : Nat
  serverDomain    : String
  serverIp        : String
  ariHost         : String
  ariPort         : Nat
  ariUser         : String
  ariPassword     : String
  ariAppName      : String
  callTokenTtlSec : Nat
  ringTimeoutSec  : Nat
  redisHost       : String
  redisPort       : Nat
  redisPassword   : String
  postgres        : PgConfig
  realphone       : String
  expoAccessToken : String
deriving DecidableEq, Repr

/-- `requireEnv` — throws when the variable is unset or empty
(`!value || value.length === 0`). -/
def requireEnv (getv : String → Option String) (key : String) : Except String String :=
  match getv key with
  | none => .error ("Missing required env var: " ++ key)
  | some v =>
      if v.length = 0 then .error ("Missing required env var: " ++ key) else .ok v

/-- The module initialiser of `src/config/env.ts`: builds `env` from the
process environment, failing fast on any missing required variable.
`appPort`, `ariHost`, `ariPort`, `ariAppName`, `callTokenTtlSec`,
`ringTimeoutSec`, `redisHost`, `redisPort` and the postgres host/port are
literal constants in the source. -/
def loadEnv (getv : String → Option String) : Except String Env := do
  let serverDomain ← requireEnv getv "SERVER_DOMAIN"
  let serverIp ← requireEnv getv "SERVER_IP"
  let ariUser ← requireEnv getv "ARI_USER"
  let ariPassword ← requireEnv getv "ARI_PASSWORD"
  let redisPassword ← requireEnv getv "REDIS_PASSWORD"
  let pgDb ← requireEnv getv "POSTGRES_DB"
  let pgUser ← requireEnv getv "POSTGRES_USER"
  let pgPassword ← requireEnv getv "POSTGRES_PASSWORD"
  let realphone ← requireEnv getv "REALPHONE"
  .ok
    { appPort := 3000
      serverDomain := serverDomain
      serverIp := serverIp
      ariHost := "127.0.0.1"
      ariPort := 8088
      ariUser := ariUser
      ariPassword := ariPassword
      ariAppName := "intercom"
      callTokenTtlSec := 15
      ringTimeoutSec := 15
      redisHost := "127.0.0.1"
      redisPort := 6379
      redisPassword := redisPassword
      postgres := ⟨"127.0.0.1", 5432, pgDb, pgUser, pgPassword⟩
      realphone := realphone
      expoAccessToken := (getv "EXPO_ACCESS_TOKEN").getD "" }

/-! ## `src/ari/client.ts` (current draft): URLs and authentication

The current client builds credential-free URLs and puts HTTP basic
authentication in an `Authorization` header (`buildAuthHeader`), for both
the REST surface and the events WebSocket. -/

/-- The RFC 4648 base64 alphabet, used by Node's
`Buffer.toString("base64")`. -/
def base64Alphabet : List Char :=
  "ABCDEFGHIJKLMNOPQRSTUVWXYZabcdefghijklmnopqrstuvwxyz0123456789+/".toList

/-- One base64 digit. -/
def base64Char (n : Nat) : Char := base64Alphabet.getD n 'A'

/-- Base64-encode a byte list, three bytes at a time, with `=` padding. -/
def base64Chunks : List Nat → String
  | [] => ""
  | [a] =>
      let n := a * 65536
      String.mk [base64Char (n / 262144 % 64), base64Char (n / 4096 % 64)] ++ "=="
  | [a, b] =>
      let n := a * 65536 + b * 256
      String.mk [base64Char (n / 262144 % 64), base64Char (n / 4096 % 64),
                 base64Char (n / 64 % 64)] ++ "="
  | a :: b :: c :: rest =>
      let n := a * 65536 + b * 256 + c
      String.mk [base64Char (n / 262144 % 64), base64Char (n / 4096 % 64),
                 base64Char (n / 64 % 64), base64Char (n % 64)] ++ base64Chunks rest

/-- `Buffer.from(s).toString("base64")` on a UTF-8 string. -/
def base64OfString (s : String) : String :=
  base64Chunks (s.toUTF8.toList.map (·.toNat))

/-- `buildBaseUrl` — REST base; no credentials in the URL. -/
def buildBaseUrl (e : Env) : String :=
  "http://" ++ e.ariHost ++ ":" ++ toString e.ariPort ++ "/ari"

/-- `buildWsUrl` — events WebSocket URL; no credentials in the URL. -/
def buildWsUrl (e : Env) : String :=
  "ws://" ++ e.ariHost ++ ":" ++ toString e.ariPort ++ "/ari/events?app=" ++ e.ariAppName

/-- `buildAuthHeader` — `"Basic " + base64(user + ":" + password)`. -/
def buildAuthHeader (e : Env) : String :=
  "Basic " ++ base64OfString (e.ariUser ++ ":" ++ e.ariPassword)

/-- URL of an ARI REST request for `path` (the `request` helper fetches
`buildBaseUrl() + path`). -/
def requestUrl (e : Env) (path : String) : String :=
  buildBaseUrl e ++ path

/-- Headers of every ARI REST request issued by the `request` helper. -/
def requestHeaders (e : Env) : List (String × String) :=
  [("Content-Type", "application/json"), ("Authorization", buildAuthHeader e)]

/-- The WebSocket connection request of `connectAriEvents`: its URL and
its extra headers. -/
def wsConnectRequest (e : Env) : String × List (String × String) :=
  (buildWsUrl e, [("Authorization", buildAuthHeader e)])

/-- URL of the `subscribeToEndpointEvents` fetch. -/
def subscriptionUrl (e : Env) : String :=
  buildBaseUrl e ++ "/applications/" ++ e.ariAppName ++ "/subscription?eventSource=endpoint:PJSIP"

/-- Headers of the `subscribeToEndpointEvents` fetch. -/
def subscriptionHeaders (e : Env) : List (String × String) :=
  [("Authorization", buildAuthHeader e)]

/-! ## The call orchestrator (`src/index.ts`, current draft)

External calls are resolved by oracles; the Redis module is the threaded
`Sys.kv` state, the realtime tables are `Sys.db`. -/

/-- A structured engine error (non-2xx status and body). -/
structure EngineError where
  status : Nat
  body   : String
deriving DecidableEq, Repr

/-- The random identifiers minted by one doorphone `StasisStart`
(`crypto.randomUUID()` / `crypto.randomBytes(8).toString("hex")`). -/
structure FreshIds where
  callId      : String
  callToken   : String
  sipPassword : String
deriving DecidableEq, Repr

/-- Outcomes of the external calls awaited by the doorphone
`StasisStart` handler, in program order. -/
structure StasisOracle where
  /-- `createTempSipEndpoint` (Postgres). -/
  createEndpoint : Except String Unit
  /-- `createBridge` (engine REST `POST /bridges`); returns the bridge id. -/
  createBridge   : Except EngineError String
  /-- `addChannelToBridge` (engine REST). -/
  addChannel     : Except EngineError Unit
  /-- `listPushTokens(env.realphone)` (Postgres). -/
  pushTokens     : Except String (List String)
  /-- `sendExpoPush` (push vendor HTTPS). -/
  sendPush       : Except String Unit
deriving Repr

/-- The doorphone branch of the `StasisStart` handler in the current
`src/index.ts`: create the ephemeral endpoint rows, write the `call:`,
`endpoint:` and `channel:` records, then (inner `try`, failures swallowed)
create a bridge, add the doorphone channel and write `originate:`; then
fetch push tokens, return early when there are none, send the push, and
arm the ring timer.  Any error escaping the inner `try` lands in the outer
`catch` and aborts the rest of the handler. -/
def stasisStartDoorphone (e : Env) (ids : FreshIds) (ora : StasisOracle)
    (channelId : String) (s : Sys) : Sys :=
  let endpointId := "tmp_" ++ ids.callId
  let sipUsername := endpointId
  let sipPassword := ids.sipPassword
  let creds : SipCredentials := ⟨sipUsername, sipPassword, e.serverDomain, 5060⟩
  match ora.createEndpoint with
  | .error _ => s
  | .ok _ =>
    let s := createTempSipEndpoint s ⟨endpointId, sipUsername, sipPassword, "intercom", "tpl_client"⟩
    let s := setCallToken s ids.callToken ⟨channelId, endpointId, creds⟩ e.callTokenTtlSec
    let s := setEndpointSession s endpointId ⟨.call, ids.callToken⟩ e.callTokenTtlSec
    let s := setChannelSession s channelId ⟨ids.callToken, endpointId⟩ e.callTokenTtlSec
    let s := s.emit .createBridge
    let s :=
      match ora.createBridge with
      | .error _ => s
      | .ok bridgeId =>
        let s := s.emit (.addChannelToBridge bridgeId channelId)
        match ora.addChannel with
        | .error _ => s
        | .ok _ => setPendingOriginate s endpointId ⟨bridgeId, channelId⟩ e.ringTimeoutSec
    match ora.pushTokens with
    | .error _ => s
    | .ok tokens =>
      if tokens.isEmpty then s
      else
        let msgs := tokens.map (fun t => PushMessage.mk t "high" "SIP_CALL" ids.callId creds)
        let s := s.emit (.sendPush msgs)
        match ora.sendPush with
        | .error _ => s
        | .ok _ => s.emit (.armRingTimer ids.callToken channelId)

/-- The ring-timeout task armed at the end of a successful doorphone
`StasisStart`: fires after `ringTimeoutSec`; if `call:<callToken>` is
still present it hangs up the doorphone channel (failure warned) and
leaves every KV record to expire by TTL. -/
def ringTimeoutTask (callToken channelId : String) (s : Sys) : Sys :=
  match getCallToken s.kv callToken with
  | none => s
  | some _ => s.emit (.hangupChannel channelId)

/-- The endpoint object of an `EndpointStateChange` event
(`state` may be missing: `endpoint.state ?? null`). -/
structure AriEndpoint where
  technology : String
  resource   : String
  state      : Option String
deriving DecidableEq, Repr

/-- The `EndpointStateChange` handler of the current `src/index.ts`:
for a PJSIP endpoint with a `tmp_` resource, look up
`originate:<resource>`; skip while the reported state is `offline` or
`unknown`; otherwise originate `PJSIP/<resource>` into the application
with `appArgs = "outgoing," + bridgeId` and delete the record exactly on
originate success. -/
def endpointStateChange (e : Env) (ora : Except EngineError Unit)
    (ep : AriEndpoint) (s : Sys) : Sys :=
  if ep.technology = "PJSIP" ∧ strStartsWith ep.resource "tmp_" = true then
    match getPendingOriginate s.kv ep.resource with
    | none => s
    | some pending =>
      if ep.state = some "offline" ∨ ep.state = some "unknown" then s
      else
        let s := s.emit (.originate ("PJSIP/" ++ ep.resource) e.ariAppName
          ("outgoing," ++ pending.bridgeId))
        match ora with
        | .ok _ => deletePendingOriginate s ep.resource
        | .error _ => s
  else s

/-- The loop body of the fallback poller `checkPendingOriginate`: retry
the pending originate of one endpoint id and delete the record on
success; originate failure is swallowed. -/
def pollOne (e : Env) (ora : String → Except EngineError Unit) (s : Sys) (endpointId : String) : Sys :=
  match getPendingOriginate s.kv endpointId with
  | none => s
  | some pending =>
      let s := s.emit (.originate ("PJSIP/" ++ endpointId) e.ariAppName
        ("outgoing," ++ pending.bridgeId))
      match ora endpointId with
      | .ok _ => deletePendingOriginate s endpointId
      | .error _ => s

/-- The fallback poller `checkPendingOriginate` (every 2 s): for each
disposable endpoint id, retry any pending originate. -/
def checkPendingOriginate (e : Env) (ora : String → Except EngineError Unit) (s : Sys) : Sys :=
  (listTempSipEndpoints s.db).foldl (pollOne e ora) s

/-- The loop body of the stale-endpoint sweep `cleanupStaleEndpoints`
(every 60 s) of the current `src/index.ts`: delete the realtime rows of
one disposable endpoint id when `endpoint:<id>` is gone from KV, or when
the session record is present but `getCallToken(session.token)` — note:
the `call:` lookup is used for both session kinds — returns nothing.  A
failing Postgres delete is warned and skipped. -/
def sweepOne (delOra : String → Except String Unit) (s : Sys) (endpointId : String) : Sys :=
  match getEndpointSession s.kv endpointId with
  | none =>
      (match delOra endpointId with
       | .ok _ => deleteTempSipEndpoint s endpointId
       | .error _ => s)
  | some session =>
      match getCallToken s.kv session.token with
      | none =>
          (match delOra endpointId with
           | .ok _ => deleteTempSipEndpoint s endpointId
           | .error _ => s)
      | some _ => s

/-- The stale-endpoint sweep, folded over the listed disposable ids. -/
def cleanupStaleEndpoints (delOra : String → Except String Unit) (s : Sys) : Sys :=
  (listTempSipEndpoints s.db).foldl (sweepOne delOra) s

/-! ## HTTP call routes (`src/routes/calls.ts`, current revision) -/

/-- Outcome of an HTTP handler: `ok`, or one of the error translations
(`badRequest` → 400, `notFound` → 404, any other thrown error → 500). -/
inductive HttpOutcome (α : Type)
  | ok (value : α)
  | badRequest (msg : String)
  | notFound (msg : String)
  | serverError
deriving DecidableEq, Repr

/-- `endCallByToken` of the current routes revision: resolve
`call:<callToken>` (missing → 404), hang up the doorphone channel
(failure warned, not fatal), and leave every KV record for TTL cleanup
(`// Не удаляем данные - Redis очистит их автоматически по TTL`). -/
def endCallByToken (s : Sys) (callToken : String) : Sys × HttpOutcome Unit :=
  match getCallToken s.kv callToken with
  | none => (s, .notFound "Invalid callToken")
  | some payload => (s.emit (.hangupChannel payload.channelId), .ok ())

/-- `POST /calls/end` (and its alias `POST /calls/reject`): missing token
→ 400, otherwise `endCallByToken`; on success the body is `{ok:true}`. -/
def postCallsEnd (s : Sys) (callToken : Option String) : Sys × HttpOutcome Unit :=
  match callToken with
  | none => (s, .badRequest "Missing callToken")
  | some t =>
      if t = "" then (s, .badRequest "Missing callToken")
      else endCallByToken s t

/-- The detached task spawned by the current `GET /calls/credentials`
(`void (async () => { ... })()`): create a bridge, add the doorphone
channel to it, and store the pending originate; any failure is logged and
swallowed. -/
def credentialsBackgroundTask (e : Env) (bridgeOra : Except EngineError String)
    (addOra : Except EngineError Unit) (payload : CallPayload) (s : Sys) : Sys :=
  let s := s.emit .createBridge
  match bridgeOra with
  | .error _ => s
  | .ok bridgeId =>
      let s := s.emit (.addChannelToBridge bridgeId payload.channelId)
      match addOra with
      | .error _ => s
      | .ok _ => setPendingOriginate s payload.endpointId ⟨bridgeId, payload.channelId⟩ e.ringTimeoutSec

/-- The synchronous (critical-path) part of the current
`GET /calls/credentials`: resolve the token and return the minted
credentials immediately; also return the payload handed to the spawned
background task. -/
def getCredentialsSync (s : Sys) (callToken : Option String) :
    Sys × HttpOutcome SipCredentials × Option CallPayload :=
  match callToken with
  | none => (s, .badRequest "Missing callToken", none)
  | some t =>
      if t = "" then (s, .badRequest "Missing callToken", none)
      else
        match getCallToken s.kv t with
        | none => (s, .notFound "Invalid callToken", none)
        | some payload => (s, .ok payload.creds, some payload)

/-- A full `GET /calls/credentials` request of the current revision:
the synchronous part followed by the detached background task. -/
def getCredentialsRequest (e : Env) (bridgeOra : Except EngineError String)
    (addOra : Except EngineError Unit) (s : Sys) (callToken : Option String) :
    Sys × HttpOutcome SipCredentials :=
  match getCredentialsSync s callToken with
  | (s', out, some payload) => (credentialsBackgroundTask e bridgeOra addOra payload s', out)
  | (s', out, none) => (s', out)

/-- `GET /calls/credentials` of the older named draft
(`src/routes/calls.ts` as committed): the bridge creation, add-channel
and originate are awaited on the critical path before the credentials are
returned; an engine failure surfaces as a 500. -/
def getCredentialsDraft (e : Env) (bridgeOra : Except EngineError String)
    (addOra origOra : Except EngineError Unit) (s : Sys) (callToken : Option String) :
    Sys × HttpOutcome SipCredentials :=
  match callToken with
  | none => (s, .badRequest "Missing callToken")
  | some t =>
      if t = "" then (s, .badRequest "Missing callToken")
      else
        match getCallToken s.kv t with
        | none => (s, .notFound "Invalid callToken")
        | some payload =>
          let s := s.emit .createBridge
          match bridgeOra with
          | .error _ => (s, .serverError)
          | .ok bridgeId =>
            let s := s.emit (.addChannelToBridge bridgeId payload.channelId)
            match addOra with
            | .error _ => (s, .serverError)
            | .ok _ =>
              let s := s.emit (.originate ("PJSIP/" ++ payload.endpointId) e.ariAppName
                ("outgoing," ++ bridgeId))
              match origOra with
              | .error _ => (s, .serverError)
              | .ok _ => (s, .ok payload.creds)

/-- `POST /calls/outgoing-credentials` (current revision): mint an
`out_<outgoingToken>` endpoint, write `outgoing:<token>` and
`endpoint:<endpointId>` (kind `outgoing`), and return the token with the
credentials. -/
def postOutgoingCredentials (e : Env) (createOra : Except String Unit)
    (outgoingToken sipPassword : String) (s : Sys) :
    Sys × HttpOutcome (String × SipCredentials) :=
  let endpointId := "out_" ++ outgoingToken
  let sipUsername := endpointId
  match createOra with
  | .error _ => (s, .serverError)
  | .ok _ =>
    let s := createTempSipEndpoint s ⟨endpointId, sipUsername, sipPassword, "intercom", "tpl_client"⟩
    let creds : SipCredentials := ⟨sipUsername, sipPassword, e.serverDomain, 5060⟩
    let s := setOutgoingToken s outgoingToken ⟨endpointId, creds⟩ e.callTokenTtlSec
    let s := setEndpointSession s endpointId ⟨.outgoing, outgoingToken⟩ e.callTokenTtlSec
    (s, .ok (outgoingToken, creds))

/-! ## Fine-grained interleaving of the two originate paths

Both the `EndpointStateChange` handler and the poller perform, for one
endpoint, the awaited sequence *read `originate:<e>`* → *originate* →
*delete `originate:<e>`*.  On the Node event loop each `await` is a yield
point, so two such attempts can interleave.  `RaceTask` is one attempt,
decomposed at its `await` boundaries; `raceStep` advances one chosen task
by one awaited call. -/

/-- Progress of one attempt (event-driven or poller) for a fixed
endpoint, split at the `await` points of the source. -/
inductive RaceTask
  /-- before `await getPendingOriginate(endpointId)` -/
  | ready
  /-- holds the value read from `originate:<e>`; before `await originateCall` -/
  | got (pending : PendingOriginate)
  /-- originate succeeded; before `await deletePendingOriginate` -/
  | deleting
  /-- the invocation returned -/
  | finished
deriving DecidableEq, Repr

/-- State of the race for one endpoint: the `originate:<e>` record, the
two tasks, and the count of successful originates issued so far. -/
structure RaceState where
  record    : Option PendingOriginate
  taskA     : RaceTask
  taskB     : RaceTask
  successes : Nat
deriving DecidableEq, Repr

/-- Advance one task by one awaited call.  Originate is assumed to
succeed (the engine accepts both calls); a task that read `none` is a
no-op and finishes. -/
def raceTaskStep (rec : Option PendingOriginate) : RaceTask → RaceTask × Option PendingOriginate × Nat
  | .ready =>
      match rec with
      | none => (.finished, rec, 0)
      | some p => (.got p, rec, 0)
  | .got _ => (.deleting, rec, 1)
  | .deleting => (.finished, none, 0)
  | .finished => (.finished, rec, 0)

/-- Advance the chosen task (`true` = A, `false` = B) by one awaited call. -/
def raceStep (st : RaceState) (chooseA : Bool) : RaceState :=
  if chooseA then
    let (t, rec, k) := raceTaskStep st.record st.taskA
    { st with taskA := t, record := rec, successes := st.successes + k }
  else
    let (t, rec, k) := raceTaskStep st.record st.taskB
    { st with taskB := t, record := rec, successes := st.successes + k }

/-- Run a schedule (list of task choices). -/
def raceRun (st : RaceState) (schedule : List Bool) : RaceState :=
  schedule.foldl raceStep st

/-! ## Atomic-attempt model for the at-most-once originate lease

When the two paths do *not* interleave (each invocation of the
`EndpointStateChange` handler / of the poller's per-endpoint body runs to
completion before the other runs), an attempt is one application of
`endpointStateChange` or `checkPendingOriginate` to the current state. -/

/-- One non-interleaved attempt against a fixed endpoint id `eId`:
either an `EndpointStateChange` event for `eId` (with the reported state
and the originate outcome), or one poller pass (with its per-endpoint
originate outcomes). -/
inductive OrigAttempt
  | event (st : Option String) (ora : Except EngineError Unit)
  | poll (ora : String → Except EngineError Unit)

/-- Apply one attempt. -/
def runOrigAttempt (e : Env) (eId : String) (s : Sys) : OrigAttempt → Sys
  | .event st ora => endpointStateChange e ora ⟨"PJSIP", eId, st⟩ s
  | .poll ora => checkPendingOriginate e ora s

/-- Apply a sequence of attempts. -/
def runOrigAttempts (e : Env) (eId : String) (s : Sys) (l : List OrigAttempt) : Sys :=
  l.foldl (runOrigAttempt e eId) s

/-- Number of successful originates issued for `originate:<eId>` along a
sequence of non-interleaved attempts.  Both source paths delete the
record directly after — and only after — a successful originate, so an
attempt scores exactly when it turns the record from present to absent. -/
def origSuccessCount (e : Env) (eId : String) : Sys → List OrigAttempt → Nat
  | _, [] => 0
  | s, a :: rest =>
      let t := runOrigAttempt e eId s a
      (if (getPendingOriginate s.kv eId).isSome && (getPendingOriginate t.kv eId).isNone
        then 1 else 0) + origSuccessCount e eId t rest

/-! ## Concrete fixtures for the closed witness and counterexample
theorems -/

/-- A concrete configuration (matching `loadEnv sampleEnvMap`). -/
def cEnv : Env :=
  { appPort := 3000
    serverDomain := "door.example.org"
    serverIp := "198.51.100.7"
    ariHost := "127.0.0.1"
    ariPort := 8088
    ariUser := "ariuser"
    ariPassword := "arisecret"
    ariAppName := "intercom"
    callTokenTtlSec := 15
    ringTimeoutSec := 15
    redisHost := "127.0.0.1"
    redisPort := 6379
    redisPassword := "redispw"
    postgres := ⟨"127.0.0.1", 5432, "intercom", "pguser", "pgpw"⟩
    realphone := "realphone-user"
    expoAccessToken := "" }

/-- Same configuration with different engine credentials (for the
credential-independence hyperproperty). -/
def cEnv9 : Env := { cEnv with ariUser := "otheruser", ariPassword := "othersecret" }

/-- A concrete environment map providing every required variable. -/
def sampleEnvMap : String → Option String := fun k =>
  if k = "SERVER_DOMAIN" then some "door.example.org"
  else if k = "SERVER_IP" then some "198.51.100.7"
  else if k = "ARI_USER" then some "ariuser"
  else if k = "ARI_PASSWORD" then some "arisecret"
  else if k = "REDIS_PASSWORD" then some "redispw"
  else if k = "POSTGRES_DB" then some "intercom"
  else if k = "POSTGRES_USER" then some "pguser"
  else if k = "POSTGRES_PASSWORD" then some "pgpw"
  else if k = "REALPHONE" then some "realphone-user"
  else none

/-- Concrete fresh identifiers for one doorphone call. -/
def cIds : FreshIds := ⟨"c1", "tok1", "pw1"⟩

/-- Oracle of a run where the engine's `POST /bridges` returns 503 and
every other external call succeeds; one push token is registered. -/
def bridgeFailOracle : StasisOracle :=
  ⟨.ok (), .error ⟨503, "Service Unavailable"⟩, .ok (), .ok ["ExponentPushToken[xyz]"], .ok ()⟩

/-- Oracle of a run where setup succeeds but the push dispatch fails
(`sendExpoPush` throws on a non-ok vendor response). -/
def pushFailOracle : StasisOracle :=
  ⟨.ok (), .ok "BR1", .ok (), .ok ["ExponentPushToken[xyz]"], .error "Expo push failed: 500"⟩

/-- Oracle of a run where setup succeeds and the recipient has no
registered push tokens. -/
def noTokensOracle : StasisOracle :=
  ⟨.ok (), .ok "BR1", .ok (), .ok [], .ok ()⟩

/-- A state holding two live doorphone Calls (tokens `T1`, `T2`). -/
def payload1 : CallPayload := ⟨"CH1", "tmp_a", ⟨"tmp_a", "p1", "door.example.org", 5060⟩⟩

/-- Second call's payload. -/
def payload2 : CallPayload := ⟨"CH2", "tmp_b", ⟨"tmp_b", "p2", "door.example.org", 5060⟩⟩

/-- KV/DB state with the two Calls `T1`/`CH1` and `T2`/`CH2` live. -/
def twoCallsState : Sys :=
  { kv := [("call:T1", .call payload1 15), ("channel:CH1", .channel ⟨"T1", "tmp_a"⟩ 15),
           ("endpoint:tmp_a", .endpoint ⟨.call, "T1"⟩ 15),
           ("call:T2", .call payload2 15), ("channel:CH2", .channel ⟨"T2", "tmp_b"⟩ 15),
           ("endpoint:tmp_b", .endpoint ⟨.call, "T2"⟩ 15)]
    db := [⟨"tmp_a", "tmp_a", "p1", "intercom", "tpl_client"⟩,
           ⟨"tmp_b", "tmp_b", "p2", "intercom", "tpl_client"⟩]
    trace := [] }

/-- The state after a successful `POST /calls/outgoing-credentials` with
token `otok`, starting from the empty state. -/
def outgoingRun : Sys :=
  (postOutgoingCredentials cEnv (.ok ()) "otok" "opw" Sys.empty).1

/-- `outgoingRun` after one stale-endpoint sweep (all deletes succeed). -/
def outgoingSwept : Sys :=
  cleanupStaleEndpoints (fun _ => .ok ()) outgoingRun

/-- Trace membership helper: is the action a push dispatch? -/
def isSendPush : Action → Bool
  | .sendPush _ => true
  | _ => false

/-- Trace membership helper: is the action the arming of a ring timer? -/
def isArmRingTimer : Action → Bool
  | .armRingTimer _ _ => true
  | _ => false

/-- Trace membership helper: is the action an engine `POST /bridges`? -/
def isCreateBridge : Action → Bool
  | .createBridge => true
  | _ => false

/-- Trace membership helper: is the action a KV write? -/
def isKvWrite : Action → Bool
  | .kvWrite _ => true
  | _ => false

/-- Trace membership helper: is the action a realtime-row delete? -/
def isDbDeleteEndpoint : Action → Bool
  | .dbDeleteEndpoint _ => true
  | _ => false

/-- Response-shape helper: is the outcome a 404? -/
def isNotFoundOutcome {α : Type} : HttpOutcome α → Bool
  | .notFound _ => true
  | _ => false

/-! # Theorems -/

/-- `find?` for key `k'` is unaffected by filtering out key `k ≠ k'`. -/
theorem find?_filter_ne (l : List (String × KVEntry)) (k k' : String) (h : k' ≠ k) :
    (l.filter (fun p => p.1 ≠ k)).find? (fun p => p.1 = k') = l.find? (fun p => p.1 = k') := by
  induction l with
  | nil => rfl
  | cons hd tl ih =>
      by_cases hk : hd.1 = k
      · rw [List.filter_cons_of_neg (by simp [hk]),
          List.find?_cons_of_neg _ (by simp [hk]; exact fun hh => h hh.symm), ih]
      · rw [List.filter_cons_of_pos (by simp [hk])]
        by_cases hk' : hd.1 = k'
        · rw [List.find?_cons_of_pos _ (by simp [hk']), List.find?_cons_of_pos _ (by simp [hk'])]
        · rw [List.find?_cons_of_neg _ (by simp [hk']), List.find?_cons_of_neg _ (by simp [hk']), ih]

/-- `find?` for key `k` finds nothing after filtering key `k` out. -/
theorem find?_filter_self (l : List (String × KVEntry)) (k : String) :
    (l.filter (fun p => p.1 ≠ k)).find? (fun p => p.1 = k) = none := by
  induction l with
  | nil => rfl
  | cons hd tl ih =>
      by_cases hk : hd.1 = k
      · rw [List.filter_cons_of_neg (by simp [hk])]; exact ih
      · rw [List.filter_cons_of_pos (by simp [hk]), List.find?_cons_of_neg _ (by simp [hk])]
        exact ih

/-- Reading the key just written. -/
theorem KV.get_set_self (kv : KV) (k : String) (v : KVEntry) : (kv.set k v).get k = some v := by
  unfold KV.set KV.get
  rw [List.find?_cons_of_pos _ (by simp)]
  rfl

/-- Writing key `k` does not affect reads of `k' ≠ k`. -/
theorem KV.get_set_ne (kv : KV) (k k' : String) (v : KVEntry) (h : k' ≠ k) :
    (kv.set k v).get k' = kv.get k' := by
  unfold KV.set KV.get
  rw [List.find?_cons_of_neg _ (by simp; exact fun hh => h hh.symm), find?_filter_ne kv k k' h]

/-- Reading a deleted key. -/
theorem KV.get_del_self (kv : KV) (k : String) : (kv.del k).get k = none := by
  unfold KV.del KV.get
  rw [find?_filter_self]
  rfl

/-- Deleting key `k` does not affect reads of `k' ≠ k`. -/
theorem KV.get_del_ne (kv : KV) (k k' : String) (h : k' ≠ k) :
    (kv.del k).get k' = kv.get k' := by
  unfold KV.del KV.get
  rw [find?_filter_ne kv k k' h]

/-- Two appends with distinguishable left parts differ. -/
theorem append_ne_of_take_ne (p q a b : String) (n : Nat)
    (hp : n ≤ p.data.length) (hq : n ≤ q.data.length)
    (hn : p.data.take n ≠ q.data.take n) : p ++ a ≠ q ++ b := by
  intro hcontra
  apply hn
  have hdata : p.data ++ a.data = q.data ++ b.data := by
    have hc := congrArg String.data hcontra
    simpa [String.data_append] using hc
  calc p.data.take n = (p.data ++ a.data).take n := (List.take_append_of_le_length hp).symm
    _ = (q.data ++ b.data).take n := by rw [hdata]
    _ = q.data.take n := List.take_append_of_le_length hq

/-- Appending the same prefix to different strings yields different
strings. -/
theorem append_right_ne (p a b : String) (h : a ≠ b) : p ++ a ≠ p ++ b := by
  intro hcontra
  apply h
  have hdata := congrArg String.data hcontra
  simp only [String.data_append] at hdata
  exact String.ext (List.append_cancel_left hdata)

/-- `call:` keys never collide with `channel:` keys. -/
theorem key_call_ne_channel (a b : String) : "call:" ++ a ≠ "channel:" ++ b :=
  append_ne_of_take_ne _ _ _ _ 3 (by decide) (by decide) (by decide)

/-- `call:` keys never collide with `endpoint:` keys. -/
theorem key_call_ne_endpoint (a b : String) : "call:" ++ a ≠ "endpoint:" ++ b :=
  append_ne_of_take_ne _ _ _ _ 1 (by decide) (by decide) (by decide)

/-- `call:` keys never collide with `originate:` keys. -/
theorem key_call_ne_originate (a b : String) : "call:" ++ a ≠ "originate:" ++ b :=
  append_ne_of_take_ne _ _ _ _ 1 (by decide) (by decide) (by decide)

/-- `call:` keys never collide with `outgoing:` keys. -/
theorem key_call_ne_outgoing (a b : String) : "call:" ++ a ≠ "outgoing:" ++ b :=
  append_ne_of_take_ne _ _ _ _ 1 (by decide) (by decide) (by decide)

/-- `channel:` keys never collide with `endpoint:` keys. -/
theorem key_channel_ne_endpoint (a b : String) : "channel:" ++ a ≠ "endpoint:" ++ b :=
  append_ne_of_take_ne _ _ _ _ 1 (by decide) (by decide) (by decide)

/-- `channel:` keys never collide with `originate:` keys. -/
theorem key_channel_ne_originate (a b : String) : "channel:" ++ a ≠ "originate:" ++ b :=
  append_ne_of_take_ne _ _ _ _ 1 (by decide) (by decide) (by decide)

/-- `channel:` keys never collide with `outgoing:` keys. -/
theorem key_channel_ne_outgoing (a b : String) : "channel:" ++ a ≠ "outgoing:" ++ b :=
  append_ne_of_take_ne _ _ _ _ 1 (by decide) (by decide) (by decide)

/-- `endpoint:` keys never collide with `originate:` keys. -/
theorem key_endpoint_ne_originate (a b : String) : "endpoint:" ++ a ≠ "originate:" ++ b :=
  append_ne_of_take_ne _ _ _ _ 1 (by decide) (by decide) (by decide)

/-- `endpoint:` keys never collide with `outgoing:` keys. -/
theorem key_endpoint_ne_outgoing (a b : String) : "endpoint:" ++ a ≠ "outgoing:" ++ b :=
  append_ne_of_take_ne _ _ _ _ 1 (by decide) (by decide) (by decide)

/-- `originate:` keys never collide with `outgoing:` keys. -/
theorem key_originate_ne_outgoing (a b : String) : "originate:" ++ a ≠ "outgoing:" ++ b :=
  append_ne_of_take_ne _ _ _ _ 2 (by decide) (by decide) (by decide)

/-- Mirror of `key_call_ne_channel`. -/
theorem key_channel_ne_call (a b : String) : "channel:" ++ a ≠ "call:" ++ b :=
  fun h => key_call_ne_channel b a h.symm

/-- Mirror of `key_call_ne_endpoint`. -/
theorem key_endpoint_ne_call (a b : String) : "endpoint:" ++ a ≠ "call:" ++ b :=
  fun h => key_call_ne_endpoint b a h.symm

/-- Mirror of `key_call_ne_originate`. -/
theorem key_originate_ne_call (a b : String) : "originate:" ++ a ≠ "call:" ++ b :=
  fun h => key_call_ne_originate b a h.symm

/-- Mirror of `key_call_ne_outgoing`. -/
theorem key_outgoing_ne_call (a b : String) : "outgoing:" ++ a ≠ "call:" ++ b :=
  fun h => key_call_ne_outgoing b a h.symm

/-- Mirror of `key_channel_ne_endpoint`. -/
theorem key_endpoint_ne_channel (a b : String) : "endpoint:" ++ a ≠ "channel:" ++ b :=
  fun h => key_channel_ne_endpoint b a h.symm

/-- Mirror of `key_channel_ne_originate`. -/
theorem key_originate_ne_channel (a b : String) : "originate:" ++ a ≠ "channel:" ++ b :=
  fun h => key_channel_ne_originate b a h.symm

/-- Mirror of `key_channel_ne_outgoing`. -/
theorem key_outgoing_ne_channel (a b : String) : "outgoing:" ++ a ≠ "channel:" ++ b :=
  fun h => key_channel_ne_outgoing b a h.symm

/-- Mirror of `key_endpoint_ne_originate`. -/
theorem key_originate_ne_endpoint (a b : String) : "originate:" ++ a ≠ "endpoint:" ++ b :=
  fun h => key_endpoint_ne_originate b a h.symm

/-- Mirror of `key_endpoint_ne_outgoing`. -/
theorem key_outgoing_ne_endpoint (a b : String) : "outgoing:" ++ a ≠ "endpoint:" ++ b :=
  fun h => key_endpoint_ne_outgoing b a h.symm

/-- Mirror of `key_originate_ne_outgoing`. -/
theorem key_outgoing_ne_originate (a b : String) : "outgoing:" ++ a ≠ "originate:" ++ b :=
  fun h => key_originate_ne_outgoing b a h.symm

attribute [simp] KV.get_set_self KV.get_set_ne KV.get_del_self KV.get_del_ne
attribute [simp] key_call_ne_channel key_call_ne_endpoint key_call_ne_originate
  key_call_ne_outgoing key_channel_ne_endpoint key_channel_ne_originate
  key_channel_ne_outgoing key_endpoint_ne_originate key_endpoint_ne_outgoing
  key_originate_ne_outgoing key_channel_ne_call key_endpoint_ne_call
  key_originate_ne_call key_outgoing_ne_call key_endpoint_ne_channel
  key_originate_ne_channel key_outgoing_ne_channel key_originate_ne_endpoint
  key_outgoing_ne_endpoint key_outgoing_ne_originate

/-- Cracking one `Except` bind that produced a success. -/
theorem exceptBind_ok {ε α β : Type} {x : Except ε α} {f : α → Except ε β} {b : β}
    (h : (x >>= f) = .ok b) : ∃ a, x = .ok a ∧ f a = .ok b := by
  cases x with
  | error err => exact absurd h (by simp [Bind.bind, Except.bind])
  | ok a => exact ⟨a, rfl, by simpa [Bind.bind, Except.bind] using h⟩

/-- **C8.**  Configuration loading enforces `callTokenTtlSec ≥
`ringTimeoutSec`: every environment map that `loadEnv` accepts yields a
configuration satisfying the inequality, so no process can start with a
violating configuration (in the committed `src/config/env.ts` both values
are the literal constant 15, which makes the inequality hold for every
successful load and makes a violating configuration unrepresentable). -/
theorem loadEnv_ttl_ge_ring (getv : String → Option String) (e : Env)
    (h : loadEnv getv = .ok e) : e.ringTimeoutSec ≤ e.callTokenTtlSec := by
  unfold loadEnv at h
  obtain ⟨a1, -, h⟩ := exceptBind_ok h
  obtain ⟨a2, -, h⟩ := exceptBind_ok h
  obtain ⟨a3, -, h⟩ := exceptBind_ok h
  obtain ⟨a4, -, h⟩ := exceptBind_ok h
  obtain ⟨a5, -, h⟩ := exceptBind_ok h
  obtain ⟨a6, -, h⟩ := exceptBind_ok h
  obtain ⟨a7, -, h⟩ := exceptBind_ok h
  obtain ⟨a8, -, h⟩ := exceptBind_ok h
  obtain ⟨a9, -, h⟩ := exceptBind_ok h
  cases h
  exact Nat.le.refl

/-- Witness for C8: a fully populated environment map loads successfully
and the loaded configuration satisfies the inequality. -/
theorem loadEnv_ttl_ge_ring_witness :
    loadEnv sampleEnvMap = .ok cEnv ∧ cEnv.ringTimeoutSec ≤ cEnv.callTokenTtlSec :=
  ⟨by rfl, loadEnv_ttl_ge_ring sampleEnvMap cEnv (by rfl)⟩

/-- **C9.**  Engine credentials appear only in the `Authorization`
header: the REST base URL, every REST request URL, the events WebSocket
URL and the subscription URL are all independent of `ariUser` /
`ariPassword` (two configurations agreeing on host, port and application
name produce identical URLs), while the `Authorization` header of every
REST request, of the WebSocket connection and of the subscription fetch
carries `buildAuthHeader`. -/
theorem ari_credentials_only_in_header (e₁ e₂ : Env)
    (hHost : e₁.ariHost = e₂.ariHost) (hPort : e₁.ariPort = e₂.ariPort)
    (hApp : e₁.ariAppName = e₂.ariAppName) :
    buildBaseUrl e₁ = buildBaseUrl e₂ ∧
    buildWsUrl e₁ = buildWsUrl e₂ ∧
    (∀ path, requestUrl e₁ path = requestUrl e₂ path) ∧
    subscriptionUrl e₁ = subscriptionUrl e₂ ∧
    (wsConnectRequest e₁).1 = (wsConnectRequest e₂).1 ∧
    (∀ e₀ : Env, ("Authorization", buildAuthHeader e₀) ∈ requestHeaders e₀ ∧
       ("Authorization", buildAuthHeader e₀) ∈ (wsConnectRequest e₀).2 ∧
       ("Authorization", buildAuthHeader e₀) ∈ subscriptionHeaders e₀) := by
  refine ⟨?_, ?_, ?_, ?_, ?_, ?_⟩ <;>
    simp [buildBaseUrl, buildWsUrl, requestUrl, subscriptionUrl, wsConnectRequest,
      requestHeaders, subscriptionHeaders, hHost, hPort, hApp]

/-- **C4.**  For an `EndpointStateChange` event naming a PJSIP endpoint
with a `tmp_` resource that has a live `originate:` record: when the
reported state is `offline` or `unknown` the handler is a no-op (no
originate, record kept); otherwise it issues exactly one originate of
`PJSIP/<resource>` into the orchestrator application with
`appArgs = "outgoing," + bridgeId`, deleting the record exactly when the
originate succeeds (on failure the record stays). -/
theorem endpointStateChange_contract (e : Env) (ora : Except EngineError Unit)
    (resource : String) (st : Option String) (pending : PendingOriginate) (s : Sys)
    (hpref : strStartsWith resource "tmp_" = true)
    (hrec : getPendingOriginate s.kv resource = some pending) :
    ((st = some "offline" ∨ st = some "unknown") →
        endpointStateChange e ora ⟨"PJSIP", resource, st⟩ s = s) ∧
    (¬(st = some "offline" ∨ st = some "unknown") →
      (∀ err, ora = .error err →
        endpointStateChange e ora ⟨"PJSIP", resource, st⟩ s =
          s.emit (.originate ("PJSIP/" ++ resource) e.ariAppName
            ("outgoing," ++ pending.bridgeId)) ∧
        getPendingOriginate (endpointStateChange e ora ⟨"PJSIP", resource, st⟩ s).kv resource =
          some pending) ∧
      (ora = .ok () →
        (endpointStateChange e ora ⟨"PJSIP", resource, st⟩ s).trace =
          s.trace ++ [.originate ("PJSIP/" ++ resource) e.ariAppName
              ("outgoing," ++ pending.bridgeId),
            .kvDelete ("originate:" ++ resource)] ∧
        getPendingOriginate (endpointStateChange e ora ⟨"PJSIP", resource, st⟩ s).kv resource =
          none)) := by
  unfold endpointStateChange
  simp only [hrec]
  rw [if_pos ⟨by trivial, hpref⟩]
  constructor
  · intro hoff
    rw [if_pos hoff]
  · intro hoff
    rw [if_neg hoff]
    constructor
    · intro err hora
      subst hora
      exact ⟨rfl, hrec⟩
    · intro hora
      subst hora
      refine ⟨by simp [deletePendingOriginate, Sys.emit], ?_⟩
      unfold deletePendingOriginate getPendingOriginate
      simp only [Sys.emit]
      rw [KV.get_del_self]

/-- Witness for C4: a concrete event (`state = "online"`, successful
originate) issues the originate and deletes the record. -/
theorem endpointStateChange_contract_witness :
    getPendingOriginate twoCallsState.kv "tmp_a" = none ∧
    getPendingOriginate (setPendingOriginate twoCallsState "tmp_a" ⟨"BR1", "CH1"⟩ 15).kv "tmp_a" =
      some ⟨"BR1", "CH1"⟩ ∧
    ((endpointStateChange cEnv (.ok ()) ⟨"PJSIP", "tmp_a", some "online"⟩
        (setPendingOriginate twoCallsState "tmp_a" ⟨"BR1", "CH1"⟩ 15)).trace =
      [.kvWrite "originate:tmp_a",
       .originate "PJSIP/tmp_a" "intercom" "outgoing,BR1", .kvDelete "originate:tmp_a"] ∧
     getPendingOriginate (endpointStateChange cEnv (.ok ()) ⟨"PJSIP", "tmp_a", some "online"⟩
        (setPendingOriginate twoCallsState "tmp_a" ⟨"BR1", "CH1"⟩ 15)).kv "tmp_a" = none) :=
  ⟨by decide, by decide,
   by
    have h := endpointStateChange_contract cEnv (.ok ()) "tmp_a" (some "online") ⟨"BR1", "CH1"⟩
      (setPendingOriginate twoCallsState "tmp_a" ⟨"BR1", "CH1"⟩ 15) (by decide) (by decide)
    have h2 := (h.2 (by simp)) |>.2 rfl
    exact ⟨by rw [h2.1]; decide, h2.2⟩⟩

/-- **C10.**  When the recipient has no registered push tokens, the
doorphone `StasisStart` handler returns right after the setup: the
endpoint rows, the `call:`/`endpoint:`/`channel:` records, the bridge and
the `originate:` record all exist, but the trace ends without any
`sendPush`, without `armRingTimer` (so no ring-timeout hangup can ever be
issued for this call), and without any delete — the call's state can only
disappear through KV TTL expiry and the Janitor sweep. -/
theorem stasisStart_no_push_tokens (e : Env) (ids : FreshIds) (ora : StasisOracle)
    (channelId bridgeId : String) (s : Sys)
    (h1 : ora.createEndpoint = .ok ()) (h2 : ora.createBridge = .ok bridgeId)
    (h3 : ora.addChannel = .ok ()) (h4 : ora.pushTokens = .ok []) :
    (stasisStartDoorphone e ids ora channelId s).trace = s.trace ++
      [.dbCreateEndpoint ("tmp_" ++ ids.callId), .kvWrite ("call:" ++ ids.callToken),
       .kvWrite ("endpoint:" ++ ("tmp_" ++ ids.callId)), .kvWrite ("channel:" ++ channelId),
       .createBridge, .addChannelToBridge bridgeId channelId,
       .kvWrite ("originate:" ++ ("tmp_" ++ ids.callId))] ∧
    getCallToken (stasisStartDoorphone e ids ora channelId s).kv ids.callToken =
      some ⟨channelId, "tmp_" ++ ids.callId,
        ⟨"tmp_" ++ ids.callId, ids.sipPassword, e.serverDomain, 5060⟩⟩ ∧
    getEndpointSession (stasisStartDoorphone e ids ora channelId s).kv ("tmp_" ++ ids.callId) =
      some ⟨.call, ids.callToken⟩ ∧
    getChannelSession (stasisStartDoorphone e ids ora channelId s).kv channelId =
      some ⟨ids.callToken, "tmp_" ++ ids.callId⟩ ∧
    getPendingOriginate (stasisStartDoorphone e ids ora channelId s).kv ("tmp_" ++ ids.callId) =
      some ⟨bridgeId, channelId⟩ ∧
    (⟨"tmp_" ++ ids.callId, "tmp_" ++ ids.callId, ids.sipPassword, "intercom", "tpl_client"⟩ :
      PgEndpoint) ∈ (stasisStartDoorphone e ids ora channelId s).db := by
  unfold stasisStartDoorphone
  rw [h1, h2, h3, h4]
  simp only [List.isEmpty_nil, if_true]
  refine ⟨?_, ?_, ?_, ?_, ?_, ?_⟩ <;>
    simp [createTempSipEndpoint, setCallToken, setEndpointSession, setChannelSession,
      setPendingOriginate, Sys.emit, getCallToken, getEndpointSession, getChannelSession,
      getPendingOriginate]

/-- Witness for C10: a concrete no-token run, evaluated. -/
theorem stasisStart_no_push_tokens_witness :
    noTokensOracle.pushTokens = .ok [] ∧
    (stasisStartDoorphone cEnv cIds noTokensOracle "CH0" Sys.empty).trace =
      [.dbCreateEndpoint "tmp_c1", .kvWrite "call:tok1", .kvWrite "endpoint:tmp_c1",
       .kvWrite "channel:CH0", .createBridge, .addChannelToBridge "BR1" "CH0",
       .kvWrite "originate:tmp_c1"] ∧
    getPendingOriginate (stasisStartDoorphone cEnv cIds noTokensOracle "CH0" Sys.empty).kv
      "tmp_c1" = some ⟨"BR1", "CH0"⟩ :=
  ⟨rfl,
   by
    have h := stasisStart_no_push_tokens cEnv cIds noTokensOracle "CH0" "BR1" Sys.empty
      rfl rfl rfl rfl
    exact h.1.trans (by decide),
   by
    have h := stasisStart_no_push_tokens cEnv cIds noTokensOracle "CH0" "BR1" Sys.empty
      rfl rfl rfl rfl
    exact h.2.2.2.2.1⟩

/-- **C1 (amended).**  When the engine's `POST /bridges` fails during the
doorphone `StasisStart`, the failure is caught by the inner `try` and
swallowed: no `originate:<endpointId>` record is written and no channel
is added to a bridge, and the previously written `call:` record remains —
but the handler then continues: the push IS dispatched and the ring timer
IS armed (the claim's "aborted before notification, no push dispatched"
does not hold; see the counterexample). -/
theorem stasisStart_bridge_failure (e : Env) (ids : FreshIds) (ora : StasisOracle)
    (channelId : String) (err : EngineError) (tokens : List String) (s : Sys)
    (h1 : ora.createEndpoint = .ok ()) (h2 : ora.createBridge = .error err)
    (h4 : ora.pushTokens = .ok tokens) (h5 : tokens ≠ []) (h6 : ora.sendPush = .ok ())
    (hfresh : getPendingOriginate s.kv ("tmp_" ++ ids.callId) = none) :
    (stasisStartDoorphone e ids ora channelId s).trace = s.trace ++
      [.dbCreateEndpoint ("tmp_" ++ ids.callId), .kvWrite ("call:" ++ ids.callToken),
       .kvWrite ("endpoint:" ++ ("tmp_" ++ ids.callId)), .kvWrite ("channel:" ++ channelId),
       .createBridge,
       .sendPush (tokens.map (fun t => PushMessage.mk t "high" "SIP_CALL" ids.callId
         ⟨"tmp_" ++ ids.callId, ids.sipPassword, e.serverDomain, 5060⟩)),
       .armRingTimer ids.callToken channelId] ∧
    getCallToken (stasisStartDoorphone e ids ora channelId s).kv ids.callToken =
      some ⟨channelId, "tmp_" ++ ids.callId,
        ⟨"tmp_" ++ ids.callId, ids.sipPassword, e.serverDomain, 5060⟩⟩ ∧
    getPendingOriginate (stasisStartDoorphone e ids ora channelId s).kv ("tmp_" ++ ids.callId) =
      none := by
  have hne : tokens.isEmpty = false := by
    cases tokens with
    | nil => exact absurd rfl h5
    | cons a l => rfl
  unfold stasisStartDoorphone
  rw [h1, h2, h4, h6]
  refine ⟨?_, ?_, ?_⟩ <;>
    simp [hne, createTempSipEndpoint, setCallToken, setEndpointSession, setChannelSession,
      Sys.emit, getCallToken, getPendingOriginate, hfresh] <;>
    exact hfresh

/-- Witness for C1's amended theorem: the concrete 503-bridge run. -/
theorem stasisStart_bridge_failure_witness :
    bridgeFailOracle.createBridge = .error ⟨503, "Service Unavailable"⟩ ∧
    (stasisStartDoorphone cEnv cIds bridgeFailOracle "CH1" Sys.empty).trace =
      [.dbCreateEndpoint "tmp_c1", .kvWrite "call:tok1", .kvWrite "endpoint:tmp_c1",
       .kvWrite "channel:CH1", .createBridge,
       .sendPush [⟨"ExponentPushToken[xyz]", "high", "SIP_CALL", "c1",
         ⟨"tmp_c1", "pw1", "door.example.org", 5060⟩⟩],
       .armRingTimer "tok1" "CH1"] :=
  ⟨rfl,
   by
    have h := stasisStart_bridge_failure cEnv cIds bridgeFailOracle "CH1"
      ⟨503, "Service Unavailable"⟩ ["ExponentPushToken[xyz]"] Sys.empty
      rfl rfl rfl (by decide) rfl (by decide)
    exact h.1.trans (by decide)⟩

/-- Counterexample for C1 as stated: in the concrete 503-bridge run a
push IS dispatched (the claim requires that none is), even though, as the
claim says, no `originate:` record exists and the `call:` record is still
present. -/
theorem stasisStart_bridge_failure_counterexample :
    ((stasisStartDoorphone cEnv cIds bridgeFailOracle "CH1" Sys.empty).trace.any isSendPush)
      = true ∧
    getPendingOriginate (stasisStartDoorphone cEnv cIds bridgeFailOracle "CH1" Sys.empty).kv
      "tmp_c1" = none ∧
    getCallToken (stasisStartDoorphone cEnv cIds bridgeFailOracle "CH1" Sys.empty).kv "tok1"
      ≠ none :=
  ⟨by decide, by decide, by decide⟩

/-- **C2 (amended).**  A push-dispatch failure during doorphone call
setup does not tear the Call down: the error escapes to the handler's
outer `catch` and is only logged, every record (`call:`, `endpoint:`,
`channel:`, `originate:`) stays live and nothing is deleted or hung up —
but the ring timer is NOT armed (arming is sequenced after the push), so
the ring timeout never closes such a call; its state is removed only by
KV TTL expiry and the Janitor (the claim's "the ring timer is still
armed" does not hold; see the counterexample). -/
theorem stasisStart_push_failure (e : Env) (ids : FreshIds) (ora : StasisOracle)
    (channelId bridgeId : String) (perr : String) (tokens : List String) (s : Sys)
    (h1 : ora.createEndpoint = .ok ()) (h2 : ora.createBridge = .ok bridgeId)
    (h3 : ora.addChannel = .ok ()) (h4 : ora.pushTokens = .ok tokens)
    (h5 : tokens ≠ []) (h6 : ora.sendPush = .error perr) :
    (stasisStartDoorphone e ids ora channelId s).trace = s.trace ++
      [.dbCreateEndpoint ("tmp_" ++ ids.callId), .kvWrite ("call:" ++ ids.callToken),
       .kvWrite ("endpoint:" ++ ("tmp_" ++ ids.callId)), .kvWrite ("channel:" ++ channelId),
       .createBridge, .addChannelToBridge bridgeId channelId,
       .kvWrite ("originate:" ++ ("tmp_" ++ ids.callId)),
       .sendPush (tokens.map (fun t => PushMessage.mk t "high" "SIP_CALL" ids.callId
         ⟨"tmp_" ++ ids.callId, ids.sipPassword, e.serverDomain, 5060⟩))] ∧
    getCallToken (stasisStartDoorphone e ids ora channelId s).kv ids.callToken =
      some ⟨channelId, "tmp_" ++ ids.callId,
        ⟨"tmp_" ++ ids.callId, ids.sipPassword, e.serverDomain, 5060⟩⟩ ∧
    getPendingOriginate (stasisStartDoorphone e ids ora channelId s).kv ("tmp_" ++ ids.callId) =
      some ⟨bridgeId, channelId⟩ := by
  have hne : tokens.isEmpty = false := by
    cases tokens with
    | nil => exact absurd rfl h5
    | cons a l => rfl
  unfold stasisStartDoorphone
  rw [h1, h2, h3, h4, h6]
  refine ⟨?_, ?_, ?_⟩ <;>
    simp [hne, createTempSipEndpoint, setCallToken, setEndpointSession, setChannelSession,
      setPendingOriginate, Sys.emit, getCallToken, getPendingOriginate]

/-- Witness for C2's amended theorem: the concrete failing-push run. -/
theorem stasisStart_push_failure_witness :
    pushFailOracle.sendPush = .error "Expo push failed: 500" ∧
    getCallToken (stasisStartDoorphone cEnv cIds pushFailOracle "CH1" Sys.empty).kv "tok1" =
      some ⟨"CH1", "tmp_c1", ⟨"tmp_c1", "pw1", "door.example.org", 5060⟩⟩ ∧
    getPendingOriginate (stasisStartDoorphone cEnv cIds pushFailOracle "CH1" Sys.empty).kv
      "tmp_c1" = some ⟨"BR1", "CH1"⟩ :=
  ⟨rfl,
   (stasisStart_push_failure cEnv cIds pushFailOracle "CH1" "BR1" "Expo push failed: 500"
     ["ExponentPushToken[xyz]"] Sys.empty rfl rfl rfl rfl (by decide) rfl).2.1,
   (stasisStart_push_failure cEnv cIds pushFailOracle "CH1" "BR1" "Expo push failed: 500"
     ["ExponentPushToken[xyz]"] Sys.empty rfl rfl rfl rfl (by decide) rfl).2.2⟩

/-- Counterexample for C2 as stated: in the concrete failing-push run the
ring timer is NOT armed (the claim requires it to be), although the push
was attempted and the Call's records stay live. -/
theorem stasisStart_push_failure_counterexample :
    ((stasisStartDoorphone cEnv cIds pushFailOracle "CH1" Sys.empty).trace.any isArmRingTimer)
      = false ∧
    ((stasisStartDoorphone cEnv cIds pushFailOracle "CH1" Sys.empty).trace.any isSendPush)
      = true ∧
    getCallToken (stasisStartDoorphone cEnv cIds pushFailOracle "CH1" Sys.empty).kv "tok1"
      ≠ none :=
  ⟨by decide, by decide, by decide⟩

/-- **C6 (amended).**  Under the current TTL-based end handler, the first
`POST /calls/end` for a live token returns `{ok:true}` and issues the
hangup, and it changes no KV record at all (so every other Call is
untouched); but because the handler deletes nothing, a repeated call
while the `call:` record's TTL has not expired returns `{ok:true}` again
(re-issuing a harmless hangup) — 404 is returned exactly when the token
record is absent (expired or never minted), not on the second call as the
claim states (see the counterexample; the superseded draft in the
repository deleted the records on end and did return 404 on repeats). -/
theorem calls_end_ttl_behavior (s : Sys) (t u : String) (p : CallPayload)
    (hne : t ≠ "") (hp : getCallToken s.kv t = some p)
    (hune : u ≠ "") (hu : getCallToken s.kv u = none) :
    postCallsEnd s (some t) = (s.emit (.hangupChannel p.channelId), .ok ()) ∧
    (s.emit (.hangupChannel p.channelId)).kv = s.kv ∧
    postCallsEnd (s.emit (.hangupChannel p.channelId)) (some t) =
      ((s.emit (.hangupChannel p.channelId)).emit (.hangupChannel p.channelId), .ok ()) ∧
    postCallsEnd s (some u) = (s, .notFound "Invalid callToken") := by
  have hkv : (s.emit (.hangupChannel p.channelId)).kv = s.kv := rfl
  refine ⟨?_, hkv, ?_, ?_⟩
  · simp only [postCallsEnd, endCallByToken]
    rw [if_neg hne, hp]
  · simp only [postCallsEnd, endCallByToken]
    have hp' : getCallToken (s.emit (.hangupChannel p.channelId)).kv t = some p := by
      rw [hkv]; exact hp
    rw [if_neg hne, hp']
  · simp only [postCallsEnd, endCallByToken]
    rw [if_neg hune, hu]

/-- Witness for C6's amended theorem: the concrete two-call state. -/
theorem calls_end_ttl_behavior_witness :
    getCallToken twoCallsState.kv "T1" = some payload1 ∧
    postCallsEnd twoCallsState (some "T1") =
      (twoCallsState.emit (.hangupChannel "CH1"), .ok ()) ∧
    postCallsEnd twoCallsState (some "T9") = (twoCallsState, .notFound "Invalid callToken") :=
  ⟨by decide,
   (calls_end_ttl_behavior twoCallsState "T1" "T9" payload1 (by decide) (by decide)
     (by decide) (by decide)).1,
   (calls_end_ttl_behavior twoCallsState "T1" "T9" payload1 (by decide) (by decide)
     (by decide) (by decide)).2.2.2⟩

/-- Counterexample for C6 as stated: after ending call `T1`, a second
identical `POST /calls/end {callToken:"T1"}` within the TTL window
returns `{ok:true}` again, not 404 (the other call's records are indeed
unchanged). -/
theorem calls_end_repeat_counterexample :
    (postCallsEnd (postCallsEnd twoCallsState (some "T1")).1 (some "T1")).2 = .ok () ∧
    isNotFoundOutcome (postCallsEnd (postCallsEnd twoCallsState (some "T1")).1 (some "T1")).2
      = false ∧
    getCallToken (postCallsEnd (postCallsEnd twoCallsState (some "T1")).1 (some "T1")).1.kv "T2"
      = some payload2 ∧
    getChannelSession (postCallsEnd (postCallsEnd twoCallsState (some "T1")).1
      (some "T1")).1.kv "CH2" = some ⟨"T2", "tmp_b"⟩ :=
  ⟨by decide, by decide, by decide, by decide⟩

/-- **C7 (amended).**  `GET /calls/credentials` returns exactly the SIP
credentials the token was minted with, and its response does not depend
on the engine (an engine failure still yields the credentials); the
synchronous critical path performs no engine call and no KV write.  But
the request is not free of engine calls and KV writes: the handler spawns
a detached task that creates a bridge, adds the doorphone channel to it
and writes the `originate:<endpointId>` record (and in the older
committed draft of `src/routes/calls.ts` the bridge creation, add-channel
and originate are awaited on the critical path itself — see the
counterexample). -/
theorem credentials_minted_and_background (e : Env) (s : Sys) (t bId : String) (p : CallPayload)
    (hne : t ≠ "") (hp : getCallToken s.kv t = some p) :
    getCredentialsSync s (some t) = (s, .ok p.creds, some p) ∧
    getCredentialsRequest e (.ok bId) (.ok ()) s (some t) =
      (setPendingOriginate ((s.emit .createBridge).emit (.addChannelToBridge bId p.channelId))
        p.endpointId ⟨bId, p.channelId⟩ e.ringTimeoutSec, .ok p.creds) ∧
    (∀ berr : EngineError, getCredentialsRequest e (.error berr) (.ok ()) s (some t) =
      (s.emit .createBridge, .ok p.creds)) := by
  have hsync : getCredentialsSync s (some t) = (s, .ok p.creds, some p) := by
    simp only [getCredentialsSync]
    rw [if_neg hne, hp]
  refine ⟨hsync, ?_, ?_⟩
  · simp only [getCredentialsRequest, hsync, credentialsBackgroundTask]
  · intro berr
    simp only [getCredentialsRequest, hsync, credentialsBackgroundTask]

/-- Witness for C7's amended theorem: a concrete resolved token. -/
theorem credentials_minted_and_background_witness :
    getCallToken twoCallsState.kv "T1" = some payload1 ∧
    getCredentialsSync twoCallsState (some "T1") =
      (twoCallsState, .ok payload1.creds, some payload1) ∧
    getCredentialsRequest cEnv (.error ⟨503, "Service Unavailable"⟩) (.ok ()) twoCallsState
      (some "T1") = (twoCallsState.emit .createBridge, .ok payload1.creds) :=
  ⟨by decide,
   (credentials_minted_and_background cEnv twoCallsState "T1" "BR1" payload1 (by decide)
     (by decide)).1,
   (credentials_minted_and_background cEnv twoCallsState "T1" "BR1" payload1 (by decide)
     (by decide)).2.2 ⟨503, "Service Unavailable"⟩⟩

/-- Counterexample for C7 as stated: a concrete `GET /calls/credentials`
for a valid token does issue an engine `POST /bridges` — on the critical
path in the older committed draft, and in the detached task of the
current revision, which moreover writes a new `originate:` KV record. -/
theorem credentials_side_effects_counterexample :
    ((getCredentialsDraft cEnv (.ok "BR1") (.ok ()) (.ok ()) twoCallsState
      (some "T1")).1.trace.any isCreateBridge) = true ∧
    ((getCredentialsRequest cEnv (.ok "BR1") (.ok ()) twoCallsState
      (some "T1")).1.trace.any isCreateBridge) = true ∧
    ((getCredentialsRequest cEnv (.ok "BR1") (.ok ()) twoCallsState
      (some "T1")).1.trace.any isKvWrite) = true ∧
    getPendingOriginate (getCredentialsRequest cEnv (.ok "BR1") (.ok ()) twoCallsState
      (some "T1")).1.kv "tmp_a" = some ⟨"BR1", "CH1"⟩ :=
  ⟨by decide, by decide, by decide, by decide⟩

/-- **C5 (code bug).**  The stale-endpoint sweep resolves the referenced
token record through `getCallToken` for BOTH session kinds, although the
outgoing-credentials route stores its token under `outgoing:<token>`:
starting from the empty state, a successful
`POST /calls/outgoing-credentials` (token `otok`) immediately followed by
one sweep deletes the `out_otok` realtime rows even though the
`outgoing:otok` record is still live — the claim (and the spec) require a
kind-`outgoing` endpoint with a live `outgoing:` record to be kept. -/
theorem cleanup_deletes_live_outgoing :
    getEndpointSession outgoingRun.kv "out_otok" = some ⟨.outgoing, "otok"⟩ ∧
    getOutgoingToken outgoingRun.kv "otok" = some ⟨"out_otok",
      ⟨"out_otok", "opw", "door.example.org", 5060⟩⟩ ∧
    getOutgoingToken outgoingSwept.kv "otok" = some ⟨"out_otok",
      ⟨"out_otok", "opw", "door.example.org", 5060⟩⟩ ∧
    outgoingSwept.db = [] ∧
    (outgoingSwept.trace.any isDbDeleteEndpoint) = true :=
  ⟨by decide, by decide, by decide, by decide, by decide⟩

/-- One poller iteration never touches another endpoint's `originate:`
record. -/
theorem pollOne_preserves_other (e : Env) (ora : String → Except EngineError Unit)
    (s : Sys) (x eId : String) (hx : x ≠ eId) :
    getPendingOriginate (pollOne e ora s x).kv eId = getPendingOriginate s.kv eId := by
  unfold pollOne
  cases hrec : getPendingOriginate s.kv x with
  | none => rfl
  | some pending =>
      cases ora x with
      | error err => rfl
      | ok u =>
          unfold deletePendingOriginate getPendingOriginate Sys.emit
          simp only
          rw [KV.get_del_ne _ _ _ (append_right_ne _ _ _ (fun hh => hx hh.symm))]

/-- One poller iteration on an endpoint whose record is absent is a
no-op. -/
theorem pollOne_absent_noop (e : Env) (ora : String → Except EngineError Unit)
    (s : Sys) (eId : String) (h : getPendingOriginate s.kv eId = none) :
    pollOne e ora s eId = s := by
  unfold pollOne
  rw [h]

/-- One poller iteration keeps an absent record absent. -/
theorem pollOne_preserves_none (e : Env) (ora : String → Except EngineError Unit)
    (s : Sys) (x eId : String) (h : getPendingOriginate s.kv eId = none) :
    getPendingOriginate (pollOne e ora s x).kv eId = none := by
  by_cases hx : x = eId
  · subst hx
    rw [pollOne_absent_noop e ora s x h]
    exact h
  · rw [pollOne_preserves_other e ora s x eId hx]
    exact h

/-- A successful poller iteration on a present record deletes it. -/
theorem pollOne_deletes_self (e : Env) (ora : String → Except EngineError Unit)
    (s : Sys) (eId : String) (p : PendingOriginate)
    (h : getPendingOriginate s.kv eId = some p) (hok : ora eId = .ok ()) :
    getPendingOriginate (pollOne e ora s eId).kv eId = none := by
  unfold pollOne
  rw [h, hok]
  unfold deletePendingOriginate getPendingOriginate Sys.emit
  simp only
  rw [KV.get_del_self]

/-- Folding poller iterations keeps an absent record absent. -/
theorem foldl_pollOne_preserves_none (e : Env) (ora : String → Except EngineError Unit)
    (l : List String) (s : Sys) (eId : String)
    (h : getPendingOriginate s.kv eId = none) :
    getPendingOriginate (l.foldl (pollOne e ora) s).kv eId = none := by
  induction l generalizing s with
  | nil => exact h
  | cons x xs ih =>
      exact ih (pollOne e ora s x) (pollOne_preserves_none e ora s x eId h)

/-- A full poller pass over a list containing `eId` deletes a present
`originate:<eId>` record when the originate for `eId` succeeds. -/
theorem foldl_pollOne_deletes (e : Env) (ora : String → Except EngineError Unit)
    (eId : String) (hok : ora eId = .ok ()) :
    ∀ (l : List String) (s : Sys) (p : PendingOriginate), eId ∈ l →
      getPendingOriginate s.kv eId = some p →
      getPendingOriginate (l.foldl (pollOne e ora) s).kv eId = none := by
  intro l
  induction l with
  | nil => intro s p hmem _; cases hmem
  | cons x xs ih =>
      intro s p hmem h
      by_cases hx : x = eId
      · subst hx
        exact foldl_pollOne_preserves_none e ora xs (pollOne e ora s x) x
          (pollOne_deletes_self e ora s x p h hok)
      · have hmem' : eId ∈ xs := by
          cases hmem with
          | head => exact absurd rfl hx
          | tail _ hmem2 => exact hmem2
        exact ih (pollOne e ora s x) p hmem'
          ((pollOne_preserves_other e ora s x eId hx).trans h)

/-- The event-driven path is a no-op when the record is absent. -/
theorem eventPath_absent_noop (e : Env) (ora : Except EngineError Unit)
    (eId : String) (st : Option String) (s : Sys)
    (h : getPendingOriginate s.kv eId = none) :
    endpointStateChange e ora ⟨"PJSIP", eId, st⟩ s = s := by
  unfold endpointStateChange
  by_cases hc : (⟨"PJSIP", eId, st⟩ : AriEndpoint).technology = "PJSIP" ∧
      strStartsWith (⟨"PJSIP", eId, st⟩ : AriEndpoint).resource "tmp_" = true
  · rw [if_pos hc]
    simp only [h]
  · rw [if_neg hc]

/-- A single non-interleaved attempt keeps an absent record absent. -/
theorem runOrigAttempt_preserves_none (e : Env) (eId : String) (s : Sys) (a : OrigAttempt)
    (h : getPendingOriginate s.kv eId = none) :
    getPendingOriginate (runOrigAttempt e eId s a).kv eId = none := by
  cases a with
  | event st ora =>
      show getPendingOriginate (endpointStateChange e ora ⟨"PJSIP", eId, st⟩ s).kv eId = none
      rw [eventPath_absent_noop e ora eId st s h]
      exact h
  | poll ora =>
      show getPendingOriginate (checkPendingOriginate e ora s).kv eId = none
      unfold checkPendingOriginate
      exact foldl_pollOne_preserves_none e ora _ s eId h

/-- Once the record is absent, no later attempt scores a success. -/
theorem origSuccessCount_zero_of_none (e : Env) (eId : String) (s : Sys)
    (l : List OrigAttempt) (h : getPendingOriginate s.kv eId = none) :
    origSuccessCount e eId s l = 0 := by
  induction l generalizing s with
  | nil => rfl
  | cons a rest ih =>
      have h2 := runOrigAttempt_preserves_none e eId s a h
      have h3 := ih (runOrigAttempt e eId s a) h2
      show (if ((getPendingOriginate s.kv eId).isSome &&
          (getPendingOriginate (runOrigAttempt e eId s a).kv eId).isNone) = true then 1 else 0)
        + origSuccessCount e eId (runOrigAttempt e eId s a) rest = 0
      rw [h, h3]
      rfl

/-- **C3 (amended).**  For a fixed `originate:<eId>` record and any
sequence of non-interleaved attempts (each attempt being one invocation
of the `EndpointStateChange` handler for `eId`, or one full poller pass):
at most one attempt ever scores a successful originate, because both
paths delete the record directly after a successful originate and an
attempt that observes no record issues no originate — the event path is
then a strict no-op and a poller pass keeps the record absent, and a
successful poller pass over `eId` deletes the record.  (The unqualified
"at most one successful originate is ever issued" of the claim fails when
the two paths interleave between their `await` points — both can read the
record before either deletes it; see the counterexample.) -/
theorem originate_at_most_once (e : Env) (eId : String) (s : Sys) (l : List OrigAttempt) :
    origSuccessCount e eId s l ≤ 1 ∧
    (getPendingOriginate s.kv eId = none →
      origSuccessCount e eId s l = 0 ∧
      getPendingOriginate (runOrigAttempts e eId s l).kv eId = none ∧
      (∀ st ora, endpointStateChange e ora ⟨"PJSIP", eId, st⟩ s = s) ∧
      (∀ ora, pollOne e ora s eId = s)) ∧
    (∀ ora p, getPendingOriginate s.kv eId = some p → ora eId = .ok () →
      getPendingOriginate (checkPendingOriginate e ora s).kv eId = none ∨
        getPendingOriginate (checkPendingOriginate e ora s).kv eId = some p) := by
  refine ⟨?_, ?_, ?_⟩
  · induction l generalizing s with
    | nil => exact Nat.zero_le 1
    | cons a rest ih =>
        show (if ((getPendingOriginate s.kv eId).isSome &&
            (getPendingOriginate (runOrigAttempt e eId s a).kv eId).isNone) = true then 1 else 0)
          + origSuccessCount e eId (runOrigAttempt e eId s a) rest ≤ 1
        cases hb : ((getPendingOriginate s.kv eId).isSome &&
            (getPendingOriginate (runOrigAttempt e eId s a).kv eId).isNone) with
        | false => simpa using ih (runOrigAttempt e eId s a)
        | true =>
            have hnone : getPendingOriginate (runOrigAttempt e eId s a).kv eId = none := by
              have hbb := (Bool.and_eq_true _ _).mp hb |>.2
              exact Option.isNone_iff_eq_none.mp hbb
            rw [origSuccessCount_zero_of_none e eId _ rest hnone]
            simp
  · intro h
    refine ⟨origSuccessCount_zero_of_none e eId s l h, ?_, ?_, ?_⟩
    · unfold runOrigAttempts
      induction l generalizing s with
      | nil => exact h
      | cons a rest ih =>
          exact ih (runOrigAttempt e eId s a) (runOrigAttempt_preserves_none e eId s a h)
    · intro st ora
      exact eventPath_absent_noop e ora eId st s h
    · intro ora
      exact pollOne_absent_noop e ora s eId h
  · intro ora p hp hok
    unfold checkPendingOriginate
    by_cases hmem : eId ∈ listTempSipEndpoints s.db
    · exact Or.inl (foldl_pollOne_deletes e ora eId hok _ s p hmem hp)
    · right
      have hgen : ∀ (l' : List String) (s' : Sys), eId ∉ l' →
          getPendingOriginate s'.kv eId = some p →
          getPendingOriginate (l'.foldl (pollOne e ora) s').kv eId = some p := by
        intro l'
        induction l' with
        | nil => intro s' _ hs'; exact hs'
        | cons x xs ih =>
            intro s' hnot hs'
            have hx : x ≠ eId := fun hh => hnot (hh ▸ List.mem_cons_self x xs)
            have hxs : eId ∉ xs := fun hh => hnot (List.mem_cons_of_mem x hh)
            exact ih (pollOne e ora s' x) hxs
              ((pollOne_preserves_other e ora s' x eId hx).trans hs')
      exact hgen _ s hmem hp

/-- Witness for C3's amended theorem: a concrete attempt sequence (one
event, one poller pass) against a state with no `originate:` record
scores zero successes and stays a no-op. -/
theorem originate_at_most_once_witness :
    origSuccessCount cEnv "tmp_a" twoCallsState
      [.event (some "online") (.ok ()), .poll (fun _ => .ok ())] ≤ 1 ∧
    origSuccessCount cEnv "tmp_a" twoCallsState
      [.event (some "online") (.ok ()), .poll (fun _ => .ok ())] = 0 ∧
    endpointStateChange cEnv (.ok ()) ⟨"PJSIP", "tmp_a", some "online"⟩ twoCallsState =
      twoCallsState :=
  ⟨(originate_at_most_once cEnv "tmp_a" twoCallsState
      [.event (some "online") (.ok ()), .poll (fun _ => .ok ())]).1,
   ((originate_at_most_once cEnv "tmp_a" twoCallsState
      [.event (some "online") (.ok ()), .poll (fun _ => .ok ())]).2.1 (by decide)).1,
   (((originate_at_most_once cEnv "tmp_a" twoCallsState
      [.event (some "online") (.ok ()), .poll (fun _ => .ok ())]).2.1
        (by decide)).2.2.1 (some "online") (.ok ()))⟩

/-- Counterexample for C3 as stated: with the two paths interleaved at
their `await` boundaries (both read `originate:<e>` before either
deletes it), one record yields TWO successful originates. -/
theorem originate_race_counterexample :
    (raceRun ⟨some ⟨"BR1", "CH1"⟩, .ready, .ready, 0⟩
      [true, false, true, true, false, false]).successes = 2 ∧
    (raceRun ⟨some ⟨"BR1", "CH1"⟩, .ready, .ready, 0⟩
      [true, false, true, true, false, false]).record = none :=
  ⟨by decide, by decide⟩

/-- Witness for C9: two concrete configurations differing exactly in the
engine credentials produce identical REST, request, WebSocket and
subscription URLs. -/
theorem ari_credentials_only_in_header_witness :
    cEnv.ariPassword ≠ cEnv9.ariPassword ∧ cEnv.ariUser ≠ cEnv9.ariUser ∧
    buildBaseUrl cEnv = buildBaseUrl cEnv9 ∧
    requestUrl cEnv "/bridges" = requestUrl cEnv9 "/bridges" ∧
    buildWsUrl cEnv = buildWsUrl cEnv9 ∧
    subscriptionUrl cEnv = subscriptionUrl cEnv9 :=
  ⟨by decide, by decide,
   (ari_credentials_only_in_header cEnv cEnv9 rfl rfl rfl).1,
   (ari_credentials_only_in_header cEnv cEnv9 rfl rfl rfl).2.2.1 "/bridges",
   (ari_credentials_only_in_header cEnv cEnv9 rfl rfl rfl).2.1,
   (ari_credentials_only_in_header cEnv cEnv9 rfl rfl rfl).2.2.2.1⟩

end Intercom
